import Mathlib

/-!
Verification of the provisioning orchestration in `sbin/system-setup.py`
(class `RedisModuleRSSetup`, a subclass of `paella.Setup`).

The phase methods (`common_first`, `debian_compat`, `redhat_compat`,
`fedora`, `macos`, `common_last`) and the command-line parser are embedded
from the source file.  The surrounding machinery — host detection, the
family dispatch performed by `paella.Setup.setup`, and the no-op/execute
run modes — lives in the external `deps/readies` (paella) library, which is
not part of this repository's sources; those parts are modelled from the
specification and are marked as such in their doc comments.
-/

namespace SystemSetup

/-- OS family of a host, as classified by the provisioning library. -/
inductive Family where
  | debian
  | redhat
  | fedora
  | macos
  | other
  deriving DecidableEq, Repr

/-- Detected host profile: OS family, architecture (ARM or not), and the
distribution nickname (`osnick`, e.g. `"ol8"`).  Read-only, derived once. -/
structure HostProfile where
  family : Family
  isArm : Bool
  osnick : String
  deriving DecidableEq, Repr

/-- One atomic provisioning step, as issued by the methods of
`RedisModuleRSSetup`: a package install (`self.install`), a helper-script
invocation (`self.run`), a pip install (`self.pip_install`), or one of the
named helper methods of `paella.Setup`. -/
inductive SetupAction where
  | install (pkg : String)
  | run (cmd : String)
  | pipInstall (pkg : String)
  | installDownloaders
  | installGnuUtils
  | installLinuxGnuTar
  deriving DecidableEq, Repr

/-- The `READIES` directory.  In the source it is computed from the script's
own location (`ROOT/deps/readies`); the concrete path does not affect any
claim, so it is embedded as the fixed relative path. -/
def READIES : String := "deps/readies"

/-- `RedisModuleRSSetup.common_first` from `sbin/system-setup.py`. -/
def common_first (p : HostProfile) : List SetupAction :=
  [SetupAction.installDownloaders,
   SetupAction.install "git",
   SetupAction.run (READIES ++ "/bin/enable-utf8"),
   SetupAction.run (READIES ++ "/bin/getclang --modern"),
   SetupAction.run (READIES ++ "/bin/getrust")]
  ++ (if p.osnick = "ol8" then [SetupAction.install "tar"] else [])
  ++ [SetupAction.run (READIES ++ "/bin/getcmake --usr")]

/-- `RedisModuleRSSetup.debian_compat` from `sbin/system-setup.py`. -/
def debian_compat : List SetupAction :=
  [SetupAction.run (READIES ++ "/bin/getgcc")]

/-- `RedisModuleRSSetup.redhat_compat` from `sbin/system-setup.py`. -/
def redhat_compat (p : HostProfile) : List SetupAction :=
  [SetupAction.install "redhat-lsb-core",
   SetupAction.run (READIES ++ "/bin/getgcc --modern")]
  ++ (if p.isArm then [] else [SetupAction.installLinuxGnuTar])

/-- `RedisModuleRSSetup.fedora` from `sbin/system-setup.py`. -/
def fedora : List SetupAction :=
  [SetupAction.run (READIES ++ "/bin/getgcc")]

/-- `RedisModuleRSSetup.macos` from `sbin/system-setup.py`. -/
def macos : List SetupAction :=
  [SetupAction.installGnuUtils,
   SetupAction.run (READIES ++ "/bin/getredis -v 6")]

/-- `RedisModuleRSSetup.common_last` from `sbin/system-setup.py`. -/
def common_last : List SetupAction :=
  [SetupAction.pipInstall "toml"]

/-- Modelled from the spec: the family-specific phase selected by
`paella.Setup.setup` (the dispatcher itself is in `deps/readies`, outside
this repository's sources).  Exactly one of the family methods is invoked,
chosen by `profile.family`; an unmatched family yields the empty phase. -/
def family_phase (p : HostProfile) : List SetupAction :=
  match p.family with
  | Family.debian => debian_compat
  | Family.redhat => redhat_compat p
  | Family.fedora => fedora
  | Family.macos => macos
  | Family.other => []

/-- Modelled from the spec: `build_plan` — `paella.Setup.setup` runs
`common_first`, then the family-specific phase, then `common_last`. -/
def build_plan (p : HostProfile) : List SetupAction :=
  common_first p ++ family_phase p ++ common_last

/-- Run mode selected by the CLI flag: dry-run (`nop`) or real execution. -/
inductive RunMode where
  | noop
  | exec
  deriving DecidableEq, Repr

/-- Result of executing a plan: the actions recorded as intended, the
actions actually invoked on the host (subprocess spawns / package-manager
calls), and the first failing action, if any. -/
structure ExecResult where
  recorded : List SetupAction
  mutations : List SetupAction
  failed : Option SetupAction
  deriving DecidableEq, Repr

/-- Modelled from the spec: `execute` — `paella.Setup` runs each action of
the plan in order.  In no-op mode the action is only recorded, never
invoked.  In execute mode the action is invoked; `env a = true` means the
subprocess exits zero.  On the first failure the run aborts with an
`ActionError` naming that action; no later action is invoked. -/
def execute (mode : RunMode) (env : SetupAction → Bool) :
    List SetupAction → ExecResult
  | [] => ⟨[], [], none⟩
  | a :: rest =>
    match mode with
    | RunMode.noop =>
      let r := execute RunMode.noop env rest
      ⟨a :: r.recorded, r.mutations, r.failed⟩
    | RunMode.exec =>
      if env a then
        let r := execute RunMode.exec env rest
        ⟨a :: r.recorded, a :: r.mutations, r.failed⟩
      else
        ⟨[a], [a], some a⟩

/-- Modelled from the spec: process exit code — zero on a fully successful
run, non-zero when an action failed. -/
def exitCode (r : ExecResult) : Nat :=
  match r.failed with
  | none => 0
  | some _ => 1

/-- Modelled from the spec: `detect_host` inspects the running system (the
inspection itself is in `deps/readies`).  The raw facts it reads: an OS
identifier, the architecture, and the distribution nickname. -/
structure RawHost where
  os : String
  isArm : Bool
  osnick : String
  deriving DecidableEq, Repr

/-- Modelled from the spec: classification of the raw OS identifier into a
family; an unrecognized identifier degrades to `other` (no hard failure). -/
def classify_family (os : String) : Family :=
  if os = "debian" ∨ os = "ubuntu" then Family.debian
  else if os = "rhel" ∨ os = "centos" ∨ os = "rocky" then Family.redhat
  else if os = "fedora" then Family.fedora
  else if os = "macos" then Family.macos
  else Family.other

/-- Modelled from the spec: `detect_host() -> HostProfile`. -/
def detect_host (h : RawHost) : HostProfile :=
  ⟨classify_family h.os, h.isArm, h.osnick⟩

/-! ### Helper lemmas -/

/-- A no-op run records the whole plan, invokes nothing, and never fails. -/
theorem execute_noop_eq (env : SetupAction → Bool) (plan : List SetupAction) :
    execute RunMode.noop env plan = ⟨plan, [], none⟩ := by
  induction plan with
  | nil => rfl
  | cons a rest ih => simp [execute, ih]

/-- A real run where every action succeeds invokes the whole plan in order
and does not fail. -/
theorem execute_exec_all_ok (env : SetupAction → Bool)
    (plan : List SetupAction) (h : ∀ b ∈ plan, env b = true) :
    execute RunMode.exec env plan = ⟨plan, plan, none⟩ := by
  induction plan with
  | nil => rfl
  | cons a rest ih =>
    have ha : env a = true := h a (List.mem_cons_self a rest)
    have hrest : ∀ b ∈ rest, env b = true := fun b hb => h b (List.mem_cons_of_mem a hb)
    simp [execute, ha, ih hrest]

/-- A real run aborts at the first failing action: everything before it was
invoked, the failing action is named, and nothing after it is touched. -/
theorem execute_exec_fail (env : SetupAction → Bool)
    (pre post : List SetupAction) (a : SetupAction)
    (hpre : ∀ b ∈ pre, env b = true) (ha : env a = false) :
    execute RunMode.exec env (pre ++ a :: post)
      = ⟨pre ++ [a], pre ++ [a], some a⟩ := by
  induction pre with
  | nil => simp [execute, ha]
  | cons b pre ih =>
    have hb : env b = true := hpre b (List.mem_cons_self b pre)
    have hpre' : ∀ c ∈ pre, env c = true := fun c hc => hpre c (List.mem_cons_of_mem b hc)
    simp [execute, hb, ih hpre']

/-! ### Claim theorems -/

/-- C1: for every `HostProfile`, the plan is `common_first` once, then
exactly one family-specific phase chosen by `profile.family` (the empty
phase when no family matches), then `common_last` once — never zero or two
family phases, and never a repeated common phase. -/
theorem C1_plan_structure (p : HostProfile) :
    build_plan p = common_first p ++ family_phase p ++ common_last
    ∧ (build_plan p).count SetupAction.installDownloaders = 1
    ∧ (build_plan p).count (SetupAction.pipInstall "toml") = 1
    ∧ (p.family = Family.debian → family_phase p = debian_compat)
    ∧ (p.family = Family.redhat → family_phase p = redhat_compat p)
    ∧ (p.family = Family.fedora → family_phase p = fedora)
    ∧ (p.family = Family.macos → family_phase p = macos)
    ∧ (p.family = Family.other → family_phase p = []) := by
  obtain ⟨f, arm, nick⟩ := p
  refine ⟨rfl, ?_, ?_, ?_, ?_, ?_, ?_, ?_⟩ <;>
    cases f <;> by_cases h : nick = "ol8" <;> cases arm <;>
      simp [build_plan, common_first, family_phase, debian_compat,
        redhat_compat, fedora, macos, common_last, h, List.count_append,
        List.count_cons]

/-- Witness for C1 at a concrete Red-Hat `ol8` ARM profile. -/
theorem C1_plan_structure_witness :
    build_plan ⟨Family.redhat, true, "ol8"⟩
      = common_first ⟨Family.redhat, true, "ol8"⟩
        ++ family_phase ⟨Family.redhat, true, "ol8"⟩ ++ common_last
    ∧ (build_plan ⟨Family.redhat, true, "ol8"⟩).count
        SetupAction.installDownloaders = 1
    ∧ (build_plan ⟨Family.redhat, true, "ol8"⟩).count
        (SetupAction.pipInstall "toml") = 1
    ∧ (HostProfile.family ⟨Family.redhat, true, "ol8"⟩ = Family.debian →
        family_phase ⟨Family.redhat, true, "ol8"⟩ = debian_compat)
    ∧ (HostProfile.family ⟨Family.redhat, true, "ol8"⟩ = Family.redhat →
        family_phase ⟨Family.redhat, true, "ol8"⟩
          = redhat_compat ⟨Family.redhat, true, "ol8"⟩)
    ∧ (HostProfile.family ⟨Family.redhat, true, "ol8"⟩ = Family.fedora →
        family_phase ⟨Family.redhat, true, "ol8"⟩ = fedora)
    ∧ (HostProfile.family ⟨Family.redhat, true, "ol8"⟩ = Family.macos →
        family_phase ⟨Family.redhat, true, "ol8"⟩ = macos)
    ∧ (HostProfile.family ⟨Family.redhat, true, "ol8"⟩ = Family.other →
        family_phase ⟨Family.redhat, true, "ol8"⟩ = []) :=
  C1_plan_structure ⟨Family.redhat, true, "ol8"⟩

/-- C2: in execute mode, if an action fails, the run aborts with an
`ActionError` naming that action — actions before it ran, nothing after it
runs, the exit code is non-zero, and there is no retry; if every action
succeeds the exit code is 0. -/
theorem C2_execute_error_handling (env : SetupAction → Bool) :
    (∀ pre a post, (∀ b ∈ pre, env b = true) → env a = false →
      (execute RunMode.exec env (pre ++ a :: post)).failed = some a
      ∧ (execute RunMode.exec env (pre ++ a :: post)).mutations = pre ++ [a]
      ∧ exitCode (execute RunMode.exec env (pre ++ a :: post)) ≠ 0)
    ∧ (∀ plan, (∀ b ∈ plan, env b = true) →
      (execute RunMode.exec env plan).failed = none
      ∧ exitCode (execute RunMode.exec env plan) = 0) := by
  constructor
  · intro pre a post hpre ha
    simp [execute_exec_fail env pre post a hpre ha, exitCode]
  · intro plan h
    simp [execute_exec_all_ok env plan h, exitCode]

/-- Witness for C2: a concrete environment in which the `tar` install in
the middle of a three-action plan exits non-zero. -/
theorem C2_execute_error_handling_witness :
    (execute RunMode.exec (fun a => decide (a ≠ SetupAction.install "tar"))
        ([SetupAction.install "git"]
          ++ SetupAction.install "tar" :: [SetupAction.pipInstall "toml"])).failed
      = some (SetupAction.install "tar")
    ∧ (execute RunMode.exec (fun a => decide (a ≠ SetupAction.install "tar"))
        ([SetupAction.install "git"]
          ++ SetupAction.install "tar" :: [SetupAction.pipInstall "toml"])).mutations
      = [SetupAction.install "git"] ++ [SetupAction.install "tar"]
    ∧ exitCode (execute RunMode.exec (fun a => decide (a ≠ SetupAction.install "tar"))
        ([SetupAction.install "git"]
          ++ SetupAction.install "tar" :: [SetupAction.pipInstall "toml"])) ≠ 0 :=
  (C2_execute_error_handling (fun a => decide (a ≠ SetupAction.install "tar"))).1
    [SetupAction.install "git"] (SetupAction.install "tar")
    [SetupAction.pipInstall "toml"] (by decide) (by decide)

/-- C3: in no-op mode, `execute` performs zero host mutations — it never
invokes a package manager, a pip install, or a helper script — it only
records the intended actions, and the exit code is 0. -/
theorem C3_noop_no_mutations (env : SetupAction → Bool)
    (plan : List SetupAction) :
    (execute RunMode.noop env plan).mutations = []
    ∧ (execute RunMode.noop env plan).recorded = plan
    ∧ (execute RunMode.noop env plan).failed = none
    ∧ exitCode (execute RunMode.noop env plan) = 0 := by
  simp [execute_noop_eq env plan, exitCode]

/-- C4: dry-run is deterministic and idempotent — for a fixed profile, two
no-op runs record identical action lists (even with different action
outcomes in the environment), namely the plan itself. -/
theorem C4_dry_run_idempotent (env₁ env₂ : SetupAction → Bool)
    (p : HostProfile) :
    (execute RunMode.noop env₁ (build_plan p)).recorded
      = (execute RunMode.noop env₂ (build_plan p)).recorded
    ∧ (execute RunMode.noop env₁ (build_plan p)).recorded = build_plan p := by
  simp [execute_noop_eq env₁ (build_plan p), execute_noop_eq env₂ (build_plan p)]

/-- C6: a Debian-family host on a non-ARM architecture is detected as
`family = debian, arch = non-arm`, and its plan is the `common_first`
actions, then exactly the GCC installer helper `getgcc`, then the
`common_last` actions. -/
theorem C6_debian_plan (h : RawHost)
    (hos : classify_family h.os = Family.debian) (harm : h.isArm = false) :
    (detect_host h).family = Family.debian
    ∧ (detect_host h).isArm = false
    ∧ build_plan (detect_host h)
      = common_first (detect_host h)
        ++ [SetupAction.run (READIES ++ "/bin/getgcc")]
        ++ common_last := by
  refine ⟨hos, harm, ?_⟩
  simp [build_plan, family_phase, detect_host, hos, debian_compat]

/-- Witness for C6: an Ubuntu x86_64 host. -/
theorem C6_debian_plan_witness :
    (detect_host ⟨"ubuntu", false, "jammy"⟩).family = Family.debian
    ∧ (detect_host ⟨"ubuntu", false, "jammy"⟩).isArm = false
    ∧ build_plan (detect_host ⟨"ubuntu", false, "jammy"⟩)
      = common_first (detect_host ⟨"ubuntu", false, "jammy"⟩)
        ++ [SetupAction.run (READIES ++ "/bin/getgcc")]
        ++ common_last :=
  C6_debian_plan ⟨"ubuntu", false, "jammy"⟩ (by decide) rfl

/-- C7: within `common_first` the listed order is preserved and, for every
profile, the C toolchain installer `getclang` occurs strictly before the
Rust toolchain installer `getrust` (each occurring exactly once). -/
theorem C7_clang_before_rust (p : HostProfile) :
    (∃ post, common_first p
      = [SetupAction.installDownloaders,
         SetupAction.install "git",
         SetupAction.run (READIES ++ "/bin/enable-utf8"),
         SetupAction.run (READIES ++ "/bin/getclang --modern"),
         SetupAction.run (READIES ++ "/bin/getrust")] ++ post)
    ∧ (common_first p).count
        (SetupAction.run (READIES ++ "/bin/getclang --modern")) = 1
    ∧ (common_first p).count (SetupAction.run (READIES ++ "/bin/getrust")) = 1 := by
  by_cases h : p.osnick = "ol8" <;>
    refine ⟨⟨(if p.osnick = "ol8" then [SetupAction.install "tar"] else [])
        ++ [SetupAction.run (READIES ++ "/bin/getcmake --usr")], rfl⟩, ?_, ?_⟩ <;>
      simp [common_first, h, List.count_append, List.count_cons, READIES]

/-- C8: an unrecognized OS family does not hard-fail the run — detection
degrades to `other`, whose family phase is empty, so the plan is just
`common_first` followed by `common_last`. -/
theorem C8_unrecognized_degrades (h : RawHost)
    (hos : classify_family h.os = Family.other) :
    (detect_host h).family = Family.other
    ∧ family_phase (detect_host h) = []
    ∧ build_plan (detect_host h)
      = common_first (detect_host h) ++ common_last := by
  refine ⟨hos, ?_, ?_⟩ <;>
    simp [build_plan, family_phase, detect_host, hos]

/-- Witness for C8: a host whose OS identifier matches no family. -/
theorem C8_unrecognized_degrades_witness :
    (detect_host ⟨"plan9", false, "x"⟩).family = Family.other
    ∧ family_phase (detect_host ⟨"plan9", false, "x"⟩) = []
    ∧ build_plan (detect_host ⟨"plan9", false, "x"⟩)
      = common_first (detect_host ⟨"plan9", false, "x"⟩) ++ common_last :=
  C8_unrecognized_degrades ⟨"plan9", false, "x"⟩ (by decide)

/-- C9: `common_first` installs the package `tar` exactly when
`osnick = "ol8"`, and then immediately before the `getcmake --usr` helper;
for any other osnick no `tar` install occurs. -/
theorem C9_tar_iff_ol8 (p : HostProfile) :
    (SetupAction.install "tar" ∈ common_first p ↔ p.osnick = "ol8")
    ∧ (p.osnick = "ol8" →
        common_first p
          = [SetupAction.installDownloaders,
             SetupAction.install "git",
             SetupAction.run (READIES ++ "/bin/enable-utf8"),
             SetupAction.run (READIES ++ "/bin/getclang --modern"),
             SetupAction.run (READIES ++ "/bin/getrust"),
             SetupAction.install "tar",
             SetupAction.run (READIES ++ "/bin/getcmake --usr")]) := by
  by_cases h : p.osnick = "ol8" <;>
    constructor <;>
      simp [common_first, h, READIES]

/-- Witness for C9: an `ol8` profile and a non-`ol8` profile. -/
theorem C9_tar_iff_ol8_witness :
    (SetupAction.install "tar" ∈ common_first ⟨Family.redhat, false, "ol8"⟩
      ↔ HostProfile.osnick ⟨Family.redhat, false, "ol8"⟩ = "ol8")
    ∧ (HostProfile.osnick ⟨Family.redhat, false, "ol8"⟩ = "ol8" →
        common_first ⟨Family.redhat, false, "ol8"⟩
          = [SetupAction.installDownloaders,
             SetupAction.install "git",
             SetupAction.run (READIES ++ "/bin/enable-utf8"),
             SetupAction.run (READIES ++ "/bin/getclang --modern"),
             SetupAction.run (READIES ++ "/bin/getrust"),
             SetupAction.install "tar",
             SetupAction.run (READIES ++ "/bin/getcmake --usr")]) :=
  C9_tar_iff_ol8 ⟨Family.redhat, false, "ol8"⟩

/-- C10: the Red-Hat phase first installs `redhat-lsb-core`, then runs
`getgcc --modern`, and installs GNU tar exactly when the platform is not
ARM. -/
theorem C10_redhat_phase (p : HostProfile) :
    (redhat_compat p).take 2
      = [SetupAction.install "redhat-lsb-core",
         SetupAction.run (READIES ++ "/bin/getgcc --modern")]
    ∧ (SetupAction.installLinuxGnuTar ∈ redhat_compat p ↔ p.isArm = false) := by
  cases harm : p.isArm <;> simp [redhat_compat, harm]

/-- Witness for C10: a non-ARM Red-Hat profile. -/
theorem C10_redhat_phase_witness :
    (redhat_compat ⟨Family.redhat, false, "centos8"⟩).take 2
      = [SetupAction.install "redhat-lsb-core",
         SetupAction.run (READIES ++ "/bin/getgcc --modern")]
    ∧ (SetupAction.installLinuxGnuTar ∈ redhat_compat ⟨Family.redhat, false, "centos8"⟩
        ↔ HostProfile.isArm ⟨Family.redhat, false, "centos8"⟩ = false) :=
  C10_redhat_phase ⟨Family.redhat, false, "centos8"⟩

end SystemSetup
